import Mathlib

/-!
Shallow embedding of `fabric-network/lib/impl/event/commiteventlistener.js`
(class `CommitEventListener`), together with the narrow interfaces it consumes
from the abstract listener base class, the event-hub manager and the hub
handle.  The base class, the manager and the hub implementation are not part
of the source tree; wherever their behaviour matters it is modelled from the
specification and marked as such in the doc comment.

JavaScript option objects are embedded as association lists of string keys to
a small JS value type; `Object.assign` and property reads (with JS truthiness)
are embedded directly.  The listener, the hubs and the manager's fresh-hub
counter form an explicit world state; `register`, `unregister` and the two
hub-invoked handlers are state transformers that also emit a trace of the
external operations they perform (base-class bookkeeping, manager calls, hub
calls), so that claims about which network operations happen, and in which
order, can be stated.
-/

set_option autoImplicit false

namespace CommitListener

/-- A JavaScript value, restricted to the shapes the listener's option
handling actually touches: booleans, strings, numbers, `null` and
`undefined`. -/
inductive JSValue where
  | vBool : Bool → JSValue
  | vStr : String → JSValue
  | vNum : Int → JSValue
  | vNull : JSValue
  | vUndefined : JSValue
deriving Repr, DecidableEq

/-- JS truthiness of a value. -/
def truthy : JSValue → Bool
  | .vBool b => b
  | .vStr s => !(s == "")
  | .vNum n => !(n == 0)
  | .vNull => false
  | .vUndefined => false

/-- A JavaScript object embedded as an association list of own properties
(first occurrence of a key wins on lookup; a well-formed object has no
duplicate keys). -/
abbrev JSObj := List (String × JSValue)

/-- Property lookup on an association list (generic in the value type; used
both for option objects and for the hub's registration table). -/
def lookupA {α : Type} : List (String × α) → String → Option α
  | [], _ => none
  | p :: rest, k => if p.1 == k then some p.2 else lookupA rest k

/-- Property assignment on an association list: overwrite the first binding
of the key, or append a fresh binding. -/
def setA {α : Type} : List (String × α) → String → α → List (String × α)
  | [], k, v => [(k, v)]
  | p :: rest, k, v => if p.1 == k then (k, v) :: rest else p :: setA rest k v

/-- Deletion of a key from an association list. -/
def removeA {α : Type} : List (String × α) → String → List (String × α)
  | [], _ => []
  | p :: rest, k => if p.1 == k then removeA rest k else p :: removeA rest k

/-- Embedding of `Object.assign(target, source)`: copy every own property of
the source onto the target, source values winning (later source entries win
over earlier ones, as JS assignment order dictates). -/
def objectAssign (target src : JSObj) : JSObj :=
  src.foldl (fun acc p => setA acc p.1 p.2) target

/-- Embedding of a truthiness test on a property read, `!!obj.k`; a missing
property reads as `undefined`, which is falsy. -/
def truthyProp (o : JSObj) (k : String) : Bool :=
  match lookupA o k with
  | some v => truthy v
  | none => false

/-- A hub handle.  Modelled from the spec: a hub is a managed connection to a
peer's event stream; it exposes `registerTxEvent` / `unregisterTxEvent` /
`connect`, a registration table keyed by transaction id (`
_transactionRegistrations`), and its peer (`_peer` / `getPeerAddr()`).  The
registration record stored in the table is the option object the watch was
installed with (the spec: the hub-side record "holding delivery options such
as auto-unregister"). -/
structure Hub where
  hubId : Nat
  peer : String
  transactionRegistrations : List (String × JSObj)
  replayCapable : Bool
  connected : Bool
  connectedFullBlocks : Bool
deriving Repr, DecidableEq

/-- The fields of the `CommitEventListener` instance (those of the abstract
base that the commit listener reads are modelled from the spec:
`options`, `eventHub`, `_registered` and the `_filtered` flag used for
`connect(!this._filtered)`). -/
structure Listener where
  transactionId : String
  listenerName : String
  options : JSObj
  eventHub : Option Nat
  registration : Option JSObj
  registered : Bool
  filtered : Bool
deriving Repr, DecidableEq

/-- The state a `register()` / `unregister()` call can touch: the listener
instance, the hub handles in existence, and the manager's supply of fresh
hub ids. -/
structure World where
  listener : Listener
  hubs : List Hub
  nextHubId : Nat
deriving Repr, DecidableEq

/-- The externally visible operations the listener performs, in order:
base-class bookkeeping, event-hub-manager calls and hub calls. -/
inductive Op where
  | superRegister : Op
  | superUnregister : Op
  | getEventHub : String → Bool → Op
  | getFixedEventHub : String → Op
  | getReplayEventHub : Op
  | registerTxEvent : Nat → String → JSObj → Op
  | unregisterTxEvent : Nat → String → Op
  | connect : Nat → Bool → Op
deriving Repr, DecidableEq

/-- Errors a call can raise: the `IllegalState`-type configuration error of
`_registerWithNewEventHub`, a JS `TypeError` (property read on
`null`/`undefined`), an exception re-thrown from the caller's callback, and
a marker for the statically unreachable fallback-reentry branch. -/
inductive JsError where
  | illegalState : String → JsError
  | typeError : String → JsError
  | jsThrow : String → JsError
  | unreachableState : JsError
deriving Repr, DecidableEq

/-- Result of a call: normal completion or a raised error. -/
inductive RunResult where
  | ok : RunResult
  | err : JsError → RunResult
deriving Repr, DecidableEq

/-- Outcome of `register()` / `unregister()`: the final world, the trace of
external operations performed (in order), and the result. -/
structure Outcome where
  world : World
  trace : List Op
  result : RunResult
deriving Repr, DecidableEq

/-- Look a hub handle up by id. -/
def findHub : List Hub → Nat → Option Hub
  | [], _ => none
  | h :: rest, hid => if h.hubId == hid then some h else findHub rest hid

/-- Apply an update to the hub with the given id. -/
def updateHub : List Hub → Nat → (Hub → Hub) → List Hub
  | [], _, _ => []
  | h :: rest, hid, f => (if h.hubId == hid then f h else h) :: updateHub rest hid f

/-- A freshly minted hub handle: empty registration table, not yet
connected. -/
def freshHub (hid : Nat) (peer : String) (replay : Bool) : Hub :=
  { hubId := hid
    peer := peer
    transactionRegistrations := []
    replayCapable := replay
    connected := false
    connectedFullBlocks := false }

/-- Modelled from the spec: `EventHubManager.getEventHub(peer, forceNew)`
with `forceNew = true` supplies a new shared handle bound to the peer (the
spec: "explicitly marked as force new"); modelled as minting a fresh hub
with an empty registration table. -/
def mgrGetEventHubForceNew (w : World) (peer : String) : World × Nat :=
  ({ w with
      hubs := w.hubs ++ [freshHub w.nextHubId peer false]
      nextHubId := w.nextHubId + 1 }, w.nextHubId)

/-- Modelled from the spec: `EventHubManager.getFixedEventHub(peer)` supplies
a dedicated, non-shared handle bound to the peer; modelled as minting a
fresh hub with an empty registration table. -/
def mgrGetFixedEventHub (w : World) (peer : String) : World × Nat :=
  ({ w with
      hubs := w.hubs ++ [freshHub w.nextHubId peer false]
      nextHubId := w.nextHubId + 1 }, w.nextHubId)

/-- Modelled from the spec: `EventHubManager.getReplayEventHub()` supplies a
replay-capable hub; modelled as minting a fresh replay-capable hub with an
empty registration table. -/
def mgrGetReplayEventHub (w : World) : World × Nat :=
  ({ w with
      hubs := w.hubs ++ [freshHub w.nextHubId "" true]
      nextHubId := w.nextHubId + 1 }, w.nextHubId)

/-- Install a watch in a hub's registration table (the hub side of
`registerTxEvent`, modelled from the spec: the table gains a record for the
transaction id holding the delivery options). -/
def hubInstall (txid : String) (reg : JSObj) (h : Hub) : Hub :=
  { h with transactionRegistrations := setA h.transactionRegistrations txid reg }

/-- Remove a watch from a hub's registration table (the hub side of
`unregisterTxEvent`, modelled from the spec). -/
def hubRemove (txid : String) (h : Hub) : Hub :=
  { h with transactionRegistrations := removeA h.transactionRegistrations txid }

/-- Open a hub's connection (the hub side of `connect(fullBlocks)`, modelled
from the spec). -/
def hubConnect (fullBlocks : Bool) (h : Hub) : Hub :=
  { h with connected := true, connectedFullBlocks := fullBlocks }

/-- `_isAlreadyRegistered(eventHub)` on a hub handle that was given: the
hub-side lookup of the listener's transaction id in the hub's registration
table.  (The source first throws `Event hub not given` on a missing handle;
in the embedding the callers match on the handle before reaching this
test, mirroring that `register()` only calls it on a bound hub.) -/
def isAlreadyRegistered (hub : Hub) (txid : String) : Bool :=
  (lookupA hub.transactionRegistrations txid).isSome

/-- `unregister()`: run the base bookkeeping (modelled from the spec: the
base clears the `registered` lifecycle flag and performs no hub action),
then, if a hub is bound, remove this transaction's watch from that hub via
`unregisterTxEvent`. -/
def unregister (w : World) : World × List Op :=
  let w1 : World :=
    { w with listener := { w.listener with registered := false } }
  match w1.listener.eventHub with
  | some hid =>
      ({ w1 with hubs := updateHub w1.hubs hid (hubRemove w1.listener.transactionId) },
        [Op.superUnregister, Op.unregisterTxEvent hid w1.listener.transactionId])
  | none => (w1, [Op.superUnregister])

/-- The body of `_registerWithNewEventHub()` up to, but not including, its
final recursive `await this.register()` call (which the embedding of
`register` performs): defensive unregistration when the listener is still
flagged registered, the fixed-hub-without-hub configuration check, hub
acquisition from the manager, and forcing `this.options.disconnect = true`.
Returns the resulting world, the trace, and `some e` when the call throws
instead of proceeding to the recursive registration. -/
def registerWithNewEventHubPre (w : World) : World × List Op × Option JsError :=
  let (w1, tr1) := if w.listener.registered then unregister w else (w, [])
  if truthyProp w1.listener.options "fixedEventHub" && w1.listener.eventHub.isNone then
    (w1, tr1, some (JsError.illegalState
      ("Cannot use a fixed event hub without setting an event hub " ++
        w1.listener.listenerName)))
  else
    if !(truthyProp w1.listener.options "fixedEventHub") then
      let (w2, nh) := mgrGetReplayEventHub w1
      let w3 : World :=
        { w2 with listener := { w2.listener with
            eventHub := some nh
            options := setA w2.listener.options "disconnect" (JSValue.vBool true) } }
      (w3, tr1 ++ [Op.getReplayEventHub], none)
    else
      match w1.listener.eventHub with
      | none =>
          (w1, tr1, some (JsError.typeError
            "Cannot read _peer of null"))
      | some hid =>
          match findHub w1.hubs hid with
          | none => (w1, tr1, some (JsError.typeError "eventHub handle not in world"))
          | some hub =>
              let (w2, nh) := mgrGetFixedEventHub w1 hub.peer
              let w3 : World :=
                { w2 with listener := { w2.listener with
                    eventHub := some nh
                    options := setA w2.listener.options "disconnect" (JSValue.vBool true) } }
              (w3, tr1 ++ [Op.getFixedEventHub hub.peer], none)

/-- The hub-bound part of `register()` (everything after the
`if (!this.eventHub)` fallback test): the duplicate-registration check with
hub substitution, `registerTxEvent` with `Object.assign({unregister: true},
this.options)`, capture of `this._registration` from the hub's table,
`connect(!this._filtered)` and setting `this._registered = true`.  The
`none` branch is statically unreachable from `register`, which only enters
here with a hub bound. -/
def registerOnHub (w : World) : Outcome :=
  match w.listener.eventHub with
  | none => ⟨w, [], RunResult.err JsError.unreachableState⟩
  | some hid =>
    match findHub w.hubs hid with
    | none => ⟨w, [], RunResult.err (JsError.typeError "eventHub handle not in world")⟩
    | some hub =>
      let (w1, tr1, hid1) :=
        if isAlreadyRegistered hub w.listener.transactionId then
          if !(truthyProp w.listener.options "fixedEventHub") then
            let (w', nh) := mgrGetEventHubForceNew w hub.peer
            ({ w' with listener := { w'.listener with eventHub := some nh } },
              [Op.getEventHub hub.peer true], nh)
          else
            let (w', nh) := mgrGetFixedEventHub w hub.peer
            ({ w' with listener := { w'.listener with eventHub := some nh } },
              [Op.getFixedEventHub hub.peer], nh)
        else (w, ([] : List Op), hid)
      let mergedOpts := objectAssign [("unregister", JSValue.vBool true)] w1.listener.options
      let w2 : World :=
        { w1 with hubs := updateHub w1.hubs hid1 (hubInstall w1.listener.transactionId mergedOpts) }
      let regTable :=
        match findHub w2.hubs hid1 with
        | some h => h.transactionRegistrations
        | none => []
      let w3 : World :=
        { w2 with listener :=
            { w2.listener with registration := lookupA regTable w2.listener.transactionId } }
      let w4 : World :=
        { w3 with hubs := updateHub w3.hubs hid1 (hubConnect (!w3.listener.filtered)) }
      let w5 : World :=
        { w4 with listener := { w4.listener with registered := true } }
      ⟨w5,
        tr1 ++ [Op.registerTxEvent hid1 w.listener.transactionId mergedOpts,
          Op.connect hid1 (!w.listener.filtered)],
        RunResult.ok⟩

/-- `register()`: base bookkeeping (`await super.register()`, modelled from
the spec as pure bookkeeping with no hub action), then either the
hub-acquisition fallback `_registerWithNewEventHub()` followed by its
recursive `await this.register()`, or the hub-bound main path.  The source's
recursion is unrolled once: every non-throwing branch of the fallback binds
`this.eventHub` to a fresh manager-supplied hub before re-invoking
`register()`, so the re-invocation always runs base bookkeeping and then the
hub-bound path, which is how it is embedded here. -/
def register (w : World) : Outcome :=
  match w.listener.eventHub with
  | none =>
      let (w1, tr1, errOpt) := registerWithNewEventHubPre w
      match errOpt with
      | some e => ⟨w1, Op.superRegister :: tr1, RunResult.err e⟩
      | none =>
          let inner := registerOnHub w1
          ⟨inner.world, Op.superRegister :: tr1 ++ Op.superRegister :: inner.trace,
            inner.result⟩
  | some _ =>
      let inner := registerOnHub w
      ⟨inner.world, Op.superRegister :: inner.trace, inner.result⟩

/-- A positional argument of the caller's callback: `null`, a string, a JS
number (`none` standing for `NaN`, which is still of number type) or an
error object. -/
inductive CallArg where
  | jsNull : CallArg
  | jsStr : String → CallArg
  | jsNumber : Option Int → CallArg
  | jsErr : String → CallArg
deriving Repr, DecidableEq

/-- The block-number representation the hub delivers to `_onEvent`: a string
or a number. -/
inductive HubBlockNumber where
  | fromString : String → HubBlockNumber
  | fromNat : Nat → HubBlockNumber
deriving Repr, DecidableEq

/-- `Number(blockNumber)` on a hub-delivered block number: a numeric
argument is returned as is, a decimal string parses to its value, and a
non-numeric string yields `NaN` (`none`). -/
def jsNumberCoerce : HubBlockNumber → Option Int
  | .fromString s => (s.toNat?).map Int.ofNat
  | .fromNat n => some (Int.ofNat n)

/-- The caller's callback, abstracted as a function from the positional
argument list to either normal return or a thrown exception. -/
abbrev Callback := List CallArg → Except String Unit

/-- Outcome of a hub-invoked handler: final world, the callback invocations
made (each the full positional argument list, in order), the trace of
external operations, and the result (an error when an exception escapes the
handler into the hub's dispatch path). -/
structure HandlerOutcome where
  world : World
  calls : List (List CallArg)
  trace : List Op
  result : RunResult

/-- `_onEvent(txid, status, blockNumber)`: coerce the block number with
`Number`, invoke the caller callback with `(null, txid, status,
blockNumber)` inside `try { ... } catch` (an exception from the callback is
caught and only logged), then, if the captured registration's `unregister`
flag is truthy, `this.unregister()`.  Reading `.unregister` off a missing
registration is the JS `TypeError` of reading a property of `undefined`. -/
def onEvent (cb : Callback) (w : World) (txid status : String)
    (blockNumber : HubBlockNumber) : HandlerOutcome :=
  let n := jsNumberCoerce blockNumber
  let args := [CallArg.jsNull, CallArg.jsStr txid, CallArg.jsStr status,
    CallArg.jsNumber n]
  let _caught := cb args
  match w.listener.registration with
  | none => ⟨w, [args], [],
      RunResult.err (JsError.typeError "Cannot read unregister of undefined")⟩
  | some reg =>
      if truthyProp reg "unregister" then
        let (w', tr) := unregister w
        ⟨w', [args], tr, RunResult.ok⟩
      else
        ⟨w, [args], [], RunResult.ok⟩

/-- `_onError(error)`: the debug log reads `this.eventHub.getPeerAddr()`
(a `TypeError` when no hub is bound), then the caller callback is invoked
with the error as its only positional argument, with no `try`/`catch`
around it and no unregistration afterwards. -/
def onError (cb : Callback) (w : World) (error : String) : HandlerOutcome :=
  match w.listener.eventHub with
  | none => ⟨w, [], [], RunResult.err (JsError.typeError "Cannot read getPeerAddr of null")⟩
  | some hid =>
    match findHub w.hubs hid with
    | none => ⟨w, [], [], RunResult.err (JsError.typeError "eventHub handle not in world")⟩
    | some _ =>
      let args := [CallArg.jsErr error]
      match cb args with
      | Except.ok _ => ⟨w, [args], [], RunResult.ok⟩
      | Except.error e => ⟨w, [args], [], RunResult.err (JsError.jsThrow e)⟩

/-! Lemmas about the association-list object embedding and the hub arena. -/

theorem lookupA_setA_self {α : Type} (o : List (String × α)) (k : String) (v : α) :
    lookupA (setA o k v) k = some v := by
  induction o with
  | nil => simp [setA, lookupA]
  | cons p rest ih =>
      by_cases h : p.1 == k
      · simp [setA, h, lookupA]
      · simp [setA, h, lookupA, ih]

theorem lookupA_setA_ne {α : Type} (o : List (String × α)) (k k' : String) (v : α)
    (hne : k' ≠ k) : lookupA (setA o k v) k' = lookupA o k' := by
  have hkk : ¬(k == k') := by
    simp only [beq_iff_eq]
    exact fun hc => hne hc.symm
  induction o with
  | nil => simp [setA, lookupA, hkk]
  | cons p rest ih =>
      by_cases h : p.1 == k
      · have hpk : p.1 = k := eq_of_beq h
        have h2 : ¬(p.1 == k') := by rw [hpk]; exact hkk
        simp [setA, h, lookupA, hkk, h2]
      · simp [setA, h, lookupA, ih]

theorem lookupA_removeA_self {α : Type} (o : List (String × α)) (k : String) :
    lookupA (removeA o k) k = none := by
  induction o with
  | nil => simp [removeA, lookupA]
  | cons p rest ih =>
      by_cases h : p.1 == k
      · simp [removeA, h, ih]
      · simp [removeA, h, lookupA, ih]

theorem lookupA_eq_none_of_not_mem_keys {α : Type} (o : List (String × α)) (k : String)
    (h : k ∉ o.map Prod.fst) : lookupA o k = none := by
  induction o with
  | nil => simp [lookupA]
  | cons p rest ih =>
      simp only [List.map_cons, List.mem_cons] at h
      push_neg at h
      have hne : ¬(p.1 == k) := by
        simp only [beq_iff_eq]
        exact fun hc => h.1 hc.symm
      simp [lookupA, hne, ih h.2]

theorem lookupA_objectAssign_not_mem (t : JSObj) (src : JSObj) (k : String)
    (h : k ∉ src.map Prod.fst) :
    lookupA (objectAssign t src) k = lookupA t k := by
  induction src generalizing t with
  | nil => simp [objectAssign]
  | cons p rest ih =>
      simp only [List.map_cons, List.mem_cons] at h
      push_neg at h
      have hstep : objectAssign t (p :: rest) = objectAssign (setA t p.1 p.2) rest := by
        simp [objectAssign]
      rw [hstep, ih _ h.2, lookupA_setA_ne]
      exact h.1

theorem lookupA_objectAssign_mem (t : JSObj) (src : JSObj) (k : String) (v : JSValue)
    (hnd : (src.map Prod.fst).Nodup) (h : lookupA src k = some v) :
    lookupA (objectAssign t src) k = some v := by
  induction src generalizing t with
  | nil => simp [lookupA] at h
  | cons p rest ih =>
      have hstep : objectAssign t (p :: rest) = objectAssign (setA t p.1 p.2) rest := by
        simp [objectAssign]
      simp only [List.map_cons, List.nodup_cons] at hnd
      by_cases hk : p.1 == k
      · have hpk : p.1 = k := eq_of_beq hk
        simp only [lookupA, hk, if_true] at h
        have hknot : k ∉ rest.map Prod.fst := by rw [← hpk]; exact hnd.1
        rw [hstep, lookupA_objectAssign_not_mem _ _ _ hknot, ← hpk, lookupA_setA_self]
        exact h
      · simp only [lookupA, hk, Bool.false_eq_true, if_false] at h
        rw [hstep]
        exact ih _ hnd.2 h

theorem findHub_updateHub_self (hubs : List Hub) (hid : Nat) (f : Hub → Hub)
    (hf : ∀ h : Hub, (f h).hubId = h.hubId) :
    findHub (updateHub hubs hid f) hid = (findHub hubs hid).map f := by
  induction hubs with
  | nil => simp [updateHub, findHub]
  | cons h rest ih =>
      by_cases hh : h.hubId == hid
      · have hid' : (f h).hubId == hid := by rw [hf h]; exact hh
        simp [updateHub, findHub, hh, hid']
      · simp [updateHub, findHub, hh, ih]

theorem hubRemove_hubId (txid : String) (h : Hub) : (hubRemove txid h).hubId = h.hubId := by
  simp [hubRemove]

theorem hubInstall_hubId (txid : String) (reg : JSObj) (h : Hub) :
    (hubInstall txid reg h).hubId = h.hubId := by
  simp [hubInstall]

theorem hubConnect_hubId (b : Bool) (h : Hub) : (hubConnect b h).hubId = h.hubId := by
  simp [hubConnect]

theorem findHub_append_not_mem (hubs more : List Hub) (hid : Nat)
    (h : ∀ g ∈ hubs, g.hubId ≠ hid) :
    findHub (hubs ++ more) hid = findHub more hid := by
  induction hubs with
  | nil => simp
  | cons g rest ih =>
      have hg : ¬(g.hubId == hid) := by
        simp only [beq_iff_eq]
        exact h g (List.mem_cons_self g rest)
      simp only [List.cons_append, findHub, hg, if_neg, Bool.false_eq_true, not_false_iff]
      exact ih (fun g' hg' => h g' (List.mem_cons_of_mem _ hg'))

theorem freshHub_hubId (hid : Nat) (p : String) (r : Bool) :
    (freshHub hid p r).hubId = hid := rfl

theorem freshHub_transactionRegistrations (hid : Nat) (p : String) (r : Bool) :
    (freshHub hid p r).transactionRegistrations = [] := rfl

theorem freshHub_replayCapable (hid : Nat) (p : String) (r : Bool) :
    (freshHub hid p r).replayCapable = r := rfl

theorem not_mem_keys_of_lookupA_eq_none {α : Type} (o : List (String × α)) (k : String)
    (h : lookupA o k = none) : k ∉ o.map Prod.fst := by
  induction o with
  | nil => simp
  | cons p rest ih =>
      by_cases hp : p.1 == k
      · simp [lookupA, hp] at h
      · simp only [lookupA, hp, Bool.false_eq_true, if_false] at h
        have hne : p.1 ≠ k := by simpa [beq_iff_eq] using hp
        simp only [List.map_cons, List.mem_cons]
        push_neg
        exact ⟨fun hc => hne hc.symm, ih h⟩

theorem findHub_eq_some_mem (hubs : List Hub) (hid : Nat) (h : Hub)
    (hf : findHub hubs hid = some h) : h ∈ hubs ∧ h.hubId = hid := by
  induction hubs with
  | nil => simp [findHub] at hf
  | cons g rest ih =>
      by_cases hg : g.hubId == hid
      · simp only [findHub, hg, if_true, Option.some.injEq] at hf
        subst hf
        exact ⟨List.mem_cons_self _ _, eq_of_beq hg⟩
      · simp only [findHub, hg, Bool.false_eq_true, if_false] at hf
        obtain ⟨hm, he⟩ := ih hf
        exact ⟨List.mem_cons_of_mem _ hm, he⟩

/-- Shared computation: a `register()` call on a bound hub whose registration
table has no entry for this transaction id installs the watch on that very
hub with the `Object.assign({unregister: true}, this.options)` options, with
no hub substitution, and completes registered. -/
theorem register_bound_no_conflict (w : World) (hid : Nat) (hub : Hub)
    (hhub : w.listener.eventHub = some hid)
    (hfind : findHub w.hubs hid = some hub)
    (hnoconf : lookupA hub.transactionRegistrations w.listener.transactionId = none) :
    (register w).trace =
      [Op.superRegister,
        Op.registerTxEvent hid w.listener.transactionId
          (objectAssign [("unregister", JSValue.vBool true)] w.listener.options),
        Op.connect hid (!w.listener.filtered)] ∧
    (register w).world.listener.eventHub = some hid ∧
    (register w).world.listener.options = w.listener.options ∧
    (register w).result = RunResult.ok ∧
    (register w).world.listener.registered = true := by
  refine ⟨?_, ?_, ?_, ?_, ?_⟩ <;>
    simp [register, registerOnHub, hhub, hfind, isAlreadyRegistered, hnoconf]

/-! Claim theorems. -/

/-- C2: for every commit event delivered to a registered listener (one whose
registration record was captured), `_onEvent` invokes the caller callback
exactly once, with first argument `null`, the transaction id, the status and
the block number coerced by `Number` to a numeric value; the coercion gives
the same numeric value whether the hub delivered the block number as a
decimal string or as a number. -/
theorem commit_event_callback_once_numeric (cb : Callback) (w : World)
    (txid status : String) (bn : HubBlockNumber) (reg : JSObj)
    (hreg : w.listener.registration = some reg) :
    (onEvent cb w txid status bn).calls =
      [[CallArg.jsNull, CallArg.jsStr txid, CallArg.jsStr status,
        CallArg.jsNumber (jsNumberCoerce bn)]] ∧
    ∀ (s : String) (n : Nat), s.toNat? = some n →
      jsNumberCoerce (HubBlockNumber.fromString s) =
        jsNumberCoerce (HubBlockNumber.fromNat n) := by
  constructor
  · rcases hu : unregister w with ⟨w', tr⟩
    by_cases h : truthyProp reg "unregister" <;>
      simp [onEvent, hreg, h, hu]
  · intro s n hs
    simp [jsNumberCoerce, hs]

/-- Witness for C2: a registered listener receiving status `VALID` at block
`"42"` (delivered as a string) calls back once with the numeric block 42. -/
theorem commit_event_callback_once_numeric_witness :
    ((⟨⟨"tx1", "tx1L", [], some 0, some [("unregister", JSValue.vBool true)], true, false⟩,
        [], 1⟩ : World).listener.registration =
      some [("unregister", JSValue.vBool true)]) ∧
    ((onEvent (fun _ => Except.ok ())
        ⟨⟨"tx1", "tx1L", [], some 0, some [("unregister", JSValue.vBool true)], true, false⟩,
          [], 1⟩ "tx1" "VALID" (HubBlockNumber.fromString "42")).calls =
      [[CallArg.jsNull, CallArg.jsStr "tx1", CallArg.jsStr "VALID",
        CallArg.jsNumber (jsNumberCoerce (HubBlockNumber.fromString "42"))]] ∧
    ∀ (s : String) (n : Nat), s.toNat? = some n →
      jsNumberCoerce (HubBlockNumber.fromString s) =
        jsNumberCoerce (HubBlockNumber.fromNat n)) :=
  ⟨rfl, commit_event_callback_once_numeric _ _ _ _ _ _ rfl⟩

/-- C3: when the caller's callback throws during a commit event, `_onEvent`
catches the exception (nothing escapes the handler: the result is normal
completion), and when the captured registration's `unregister` flag is
truthy the listener still auto-unregisters: the trace shows base
unregistration plus `unregisterTxEvent` on the bound hub, the `registered`
flag drops to false, and the bound hub's registration table loses the entry
for this transaction id. -/
theorem commit_event_callback_throw_isolated (cb : Callback) (w : World)
    (txid status : String) (bn : HubBlockNumber) (reg : JSObj) (hid : Nat) (hub : Hub)
    (em : String)
    (hreg : w.listener.registration = some reg)
    (hhub : w.listener.eventHub = some hid)
    (hfind : findHub w.hubs hid = some hub)
    (hthrow : cb [CallArg.jsNull, CallArg.jsStr txid, CallArg.jsStr status,
      CallArg.jsNumber (jsNumberCoerce bn)] = Except.error em) :
    (onEvent cb w txid status bn).result = RunResult.ok ∧
    (truthyProp reg "unregister" = true →
      (onEvent cb w txid status bn).trace =
        [Op.superUnregister, Op.unregisterTxEvent hid w.listener.transactionId] ∧
      (onEvent cb w txid status bn).world.listener.registered = false ∧
      findHub (onEvent cb w txid status bn).world.hubs hid =
        some (hubRemove w.listener.transactionId hub) ∧
      lookupA (hubRemove w.listener.transactionId hub).transactionRegistrations
        w.listener.transactionId = none) := by
  have hunreg : unregister w =
      ({ w with
          listener := { w.listener with registered := false },
          hubs := updateHub w.hubs hid (hubRemove w.listener.transactionId) },
        [Op.superUnregister, Op.unregisterTxEvent hid w.listener.transactionId]) := by
    simp [unregister, hhub]
  constructor
  · by_cases h : truthyProp reg "unregister" <;> simp [onEvent, hreg, h, hunreg]
  · intro h
    refine ⟨?_, ?_, ?_, ?_⟩ <;>
      simp [onEvent, hreg, h, hunreg, findHub_updateHub_self, hubRemove_hubId, hfind,
        lookupA_removeA_self, hubRemove]

/-- Witness for C3: a registered listener with an auto-unregister
registration and a throwing callback still completes normally and removes
the watch. -/
theorem commit_event_callback_throw_isolated_witness :
    ((⟨⟨"tx1", "tx1L", [], some 0, some [("unregister", JSValue.vBool true)], true, false⟩,
        [⟨0, "p", [("tx1", [("unregister", JSValue.vBool true)])], false, true, false⟩],
        1⟩ : World).listener.registration = some [("unregister", JSValue.vBool true)]) ∧
    ((fun _ => Except.error "boom" : Callback)
      [CallArg.jsNull, CallArg.jsStr "tx1", CallArg.jsStr "VALID",
        CallArg.jsNumber (jsNumberCoerce (HubBlockNumber.fromNat 42))] =
      Except.error "boom") ∧
    ((onEvent (fun _ => Except.error "boom")
        ⟨⟨"tx1", "tx1L", [], some 0, some [("unregister", JSValue.vBool true)], true, false⟩,
          [⟨0, "p", [("tx1", [("unregister", JSValue.vBool true)])], false, true, false⟩],
          1⟩ "tx1" "VALID" (HubBlockNumber.fromNat 42)).result = RunResult.ok ∧
      (truthyProp [("unregister", JSValue.vBool true)] "unregister" = true →
        (onEvent (fun _ => Except.error "boom")
          ⟨⟨"tx1", "tx1L", [], some 0, some [("unregister", JSValue.vBool true)], true, false⟩,
            [⟨0, "p", [("tx1", [("unregister", JSValue.vBool true)])], false, true, false⟩],
            1⟩ "tx1" "VALID" (HubBlockNumber.fromNat 42)).trace =
          [Op.superUnregister, Op.unregisterTxEvent 0 "tx1"] ∧
        (onEvent (fun _ => Except.error "boom")
          ⟨⟨"tx1", "tx1L", [], some 0, some [("unregister", JSValue.vBool true)], true, false⟩,
            [⟨0, "p", [("tx1", [("unregister", JSValue.vBool true)])], false, true, false⟩],
            1⟩ "tx1" "VALID" (HubBlockNumber.fromNat 42)).world.listener.registered = false ∧
        findHub (onEvent (fun _ => Except.error "boom")
          ⟨⟨"tx1", "tx1L", [], some 0, some [("unregister", JSValue.vBool true)], true, false⟩,
            [⟨0, "p", [("tx1", [("unregister", JSValue.vBool true)])], false, true, false⟩],
            1⟩ "tx1" "VALID" (HubBlockNumber.fromNat 42)).world.hubs 0 =
          some (hubRemove "tx1"
            ⟨0, "p", [("tx1", [("unregister", JSValue.vBool true)])], false, true, false⟩) ∧
        lookupA (hubRemove "tx1"
            ⟨0, "p", [("tx1", [("unregister", JSValue.vBool true)])], false, true, false⟩).transactionRegistrations
          "tx1" = none)) :=
  ⟨rfl, rfl, commit_event_callback_throw_isolated _ _ _ _ _ _ _ _ _ rfl rfl rfl rfl⟩

/-- C5: on an error event delivered by the hub, `_onError` invokes the
caller callback with the error as its only positional argument, and leaves
the world untouched (no unregistration, no hub operation): the registration
stays in place. -/
theorem error_event_single_arg_no_unregister (cb : Callback) (w : World) (e : String)
    (hid : Nat) (hub : Hub)
    (hhub : w.listener.eventHub = some hid)
    (hfind : findHub w.hubs hid = some hub) :
    (onError cb w e).calls = [[CallArg.jsErr e]] ∧
    (onError cb w e).world = w ∧
    (onError cb w e).trace = [] := by
  cases hc : cb [CallArg.jsErr e] <;> simp [onError, hhub, hfind, hc]

/-- Witness for C5 at a concrete input. -/
theorem error_event_single_arg_no_unregister_witness :
    ((⟨⟨"tx1", "tx1L", [], some 0, none, true, false⟩,
        [⟨0, "p", [("tx1", [])], false, true, false⟩], 1⟩ : World).listener.eventHub =
      some 0) ∧
    ((onError (fun _ => Except.ok ())
        ⟨⟨"tx1", "tx1L", [], some 0, none, true, false⟩,
          [⟨0, "p", [("tx1", [])], false, true, false⟩], 1⟩ "conn down").calls =
      [[CallArg.jsErr "conn down"]] ∧
    (onError (fun _ => Except.ok ())
        ⟨⟨"tx1", "tx1L", [], some 0, none, true, false⟩,
          [⟨0, "p", [("tx1", [])], false, true, false⟩], 1⟩ "conn down").world =
      ⟨⟨"tx1", "tx1L", [], some 0, none, true, false⟩,
          [⟨0, "p", [("tx1", [])], false, true, false⟩], 1⟩ ∧
    (onError (fun _ => Except.ok ())
        ⟨⟨"tx1", "tx1L", [], some 0, none, true, false⟩,
          [⟨0, "p", [("tx1", [])], false, true, false⟩], 1⟩ "conn down").trace = []) :=
  ⟨rfl, error_event_single_arg_no_unregister _ _ _ _ _ rfl rfl⟩

/-- C10: unlike `_onEvent`, `_onError` wraps no `try`/`catch` around the
caller callback: when the callback throws on the error path, the exception
propagates out of the handler into the hub's dispatch path. -/
theorem error_event_callback_exception_propagates (cb : Callback) (w : World)
    (e em : String) (hid : Nat) (hub : Hub)
    (hhub : w.listener.eventHub = some hid)
    (hfind : findHub w.hubs hid = some hub)
    (hthrow : cb [CallArg.jsErr e] = Except.error em) :
    (onError cb w e).result = RunResult.err (JsError.jsThrow em) := by
  simp [onError, hhub, hfind, hthrow]

/-- Witness for C10 at a concrete input with a throwing callback. -/
theorem error_event_callback_exception_propagates_witness :
    ((fun _ => Except.error "cb blew up" : Callback) [CallArg.jsErr "conn down"] =
      Except.error "cb blew up") ∧
    (onError (fun _ => Except.error "cb blew up")
        ⟨⟨"tx1", "tx1L", [], some 0, none, true, false⟩,
          [⟨0, "p", [("tx1", [])], false, true, false⟩], 1⟩ "conn down").result =
      RunResult.err (JsError.jsThrow "cb blew up") :=
  ⟨rfl, error_event_callback_exception_propagates _ _ _ _ _ _ rfl rfl rfl⟩

/-- C4: a `register()` call with a truthy `fixedEventHub` option and no
bound hub fails with the `IllegalState`-type configuration error naming the
listener, surfaced to the registering caller as the call's result, and the
trace contains no event-hub-manager or hub operation — only base-class
bookkeeping (`super.register()`, and possibly the defensive
`super.unregister()`, which touches no hub since none is bound). -/
theorem register_fixed_without_hub_fails_fast (w : World)
    (hhub : w.listener.eventHub = none)
    (hfix : truthyProp w.listener.options "fixedEventHub" = true) :
    (register w).result = RunResult.err (JsError.illegalState
      ("Cannot use a fixed event hub without setting an event hub " ++
        w.listener.listenerName)) ∧
    ∀ op ∈ (register w).trace, op = Op.superRegister ∨ op = Op.superUnregister := by
  constructor
  · by_cases hr : w.listener.registered <;>
      simp [register, registerWithNewEventHubPre, unregister, hhub, hfix, hr]
  · intro op hop
    by_cases hr : w.listener.registered <;>
      simp [register, registerWithNewEventHubPre, unregister, hhub, hfix, hr] at hop <;>
      tauto

/-- Witness for C4: a fixed-hub listener with no bound hub fails fast. -/
theorem register_fixed_without_hub_fails_fast_witness :
    ((⟨⟨"tx9", "tx9L", [("fixedEventHub", JSValue.vBool true)], none, none, true, false⟩,
        [], 3⟩ : World).listener.eventHub = none) ∧
    (truthyProp (⟨⟨"tx9", "tx9L", [("fixedEventHub", JSValue.vBool true)], none, none, true,
        false⟩, [], 3⟩ : World).listener.options "fixedEventHub" = true) ∧
    ((register ⟨⟨"tx9", "tx9L", [("fixedEventHub", JSValue.vBool true)], none, none, true,
        false⟩, [], 3⟩).result = RunResult.err (JsError.illegalState
      ("Cannot use a fixed event hub without setting an event hub " ++ "tx9L")) ∧
    ∀ op ∈ (register ⟨⟨"tx9", "tx9L", [("fixedEventHub", JSValue.vBool true)], none, none,
        true, false⟩, [], 3⟩).trace,
      op = Op.superRegister ∨ op = Op.superUnregister) :=
  ⟨rfl, rfl, register_fixed_without_hub_fails_fast _ rfl rfl⟩

/-- Counterexample for C8 as stated: at a listener with `fixedEventHub` set
and its bound hub reference cleared, the fallback does not request the
manager's fixed handle — `register()` throws the configuration error and
the trace is bare base bookkeeping, with no `getFixedEventHub` request. -/
theorem fixed_fallback_counterexample :
    (register ⟨⟨"tx1", "tx1L", [("fixedEventHub", JSValue.vBool true)], none, none, false,
        false⟩, [], 0⟩).result = RunResult.err (JsError.illegalState
      "Cannot use a fixed event hub without setting an event hub tx1L") ∧
    (register ⟨⟨"tx1", "tx1L", [("fixedEventHub", JSValue.vBool true)], none, none, false,
        false⟩, [], 0⟩).trace = [Op.superRegister] :=
  ⟨rfl, rfl⟩

/-- C8 amended: a `register()` call entering the hub-acquisition fallback
with `fixedEventHub` set while the bound hub reference is cleared throws the
configuration error naming the listener and never requests the manager's
fixed handle (the fallback's `getFixedEventHub` branch is unreachable from
`register()`, which only enters the fallback with no hub bound). -/
theorem fixed_fallback_throws_no_fixed_hub_request (w : World)
    (hhub : w.listener.eventHub = none)
    (hfix : truthyProp w.listener.options "fixedEventHub" = true) :
    (register w).result = RunResult.err (JsError.illegalState
      ("Cannot use a fixed event hub without setting an event hub " ++
        w.listener.listenerName)) ∧
    ∀ p : String, Op.getFixedEventHub p ∉ (register w).trace := by
  constructor
  · by_cases hr : w.listener.registered <;>
      simp [register, registerWithNewEventHubPre, unregister, hhub, hfix, hr]
  · intro p hp
    by_cases hr : w.listener.registered <;>
      simp [register, registerWithNewEventHubPre, unregister, hhub, hfix, hr] at hp

/-- Witness for the amended C8 at a concrete input. -/
theorem fixed_fallback_throws_no_fixed_hub_request_witness :
    ((⟨⟨"tx2", "tx2L", [("fixedEventHub", JSValue.vBool true)], none, none, false, false⟩,
        [], 7⟩ : World).listener.eventHub = none) ∧
    (truthyProp (⟨⟨"tx2", "tx2L", [("fixedEventHub", JSValue.vBool true)], none, none,
        false, false⟩, [], 7⟩ : World).listener.options "fixedEventHub" = true) ∧
    ((register ⟨⟨"tx2", "tx2L", [("fixedEventHub", JSValue.vBool true)], none, none, false,
        false⟩, [], 7⟩).result = RunResult.err (JsError.illegalState
      ("Cannot use a fixed event hub without setting an event hub " ++ "tx2L")) ∧
    ∀ p : String, Op.getFixedEventHub p ∉
      (register ⟨⟨"tx2", "tx2L", [("fixedEventHub", JSValue.vBool true)], none, none,
        false, false⟩, [], 7⟩).trace) :=
  ⟨rfl, rfl, fixed_fallback_throws_no_fixed_hub_request _ rfl rfl⟩

/-- C1: on a `register()` call with a hub bound, when that hub's
registration table already holds an entry for this exact transaction id the
listener substitutes its hub reference before installing the watch — a
force-new shared handle for the same peer without `fixedEventHub`, the
manager's fixed handle for the same peer with it — so `registerTxEvent` (and
`connect`) target the freshly supplied hub, not the conflicted one; and when
the table has no entry for this transaction id no substitution occurs and
the watch is installed on the already-bound hub. -/
theorem register_conflict_substitutes_before_watch (w : World) (hid : Nat) (hub : Hub)
    (hhub : w.listener.eventHub = some hid)
    (hfind : findHub w.hubs hid = some hub)
    (hwf : ∀ g ∈ w.hubs, g.hubId < w.nextHubId) :
    ((lookupA hub.transactionRegistrations w.listener.transactionId).isSome = true →
      truthyProp w.listener.options "fixedEventHub" = false →
      (register w).trace =
        [Op.superRegister, Op.getEventHub hub.peer true,
          Op.registerTxEvent w.nextHubId w.listener.transactionId
            (objectAssign [("unregister", JSValue.vBool true)] w.listener.options),
          Op.connect w.nextHubId (!w.listener.filtered)] ∧
      (register w).world.listener.eventHub = some w.nextHubId ∧
      w.nextHubId ≠ hid) ∧
    ((lookupA hub.transactionRegistrations w.listener.transactionId).isSome = true →
      truthyProp w.listener.options "fixedEventHub" = true →
      (register w).trace =
        [Op.superRegister, Op.getFixedEventHub hub.peer,
          Op.registerTxEvent w.nextHubId w.listener.transactionId
            (objectAssign [("unregister", JSValue.vBool true)] w.listener.options),
          Op.connect w.nextHubId (!w.listener.filtered)] ∧
      (register w).world.listener.eventHub = some w.nextHubId ∧
      w.nextHubId ≠ hid) ∧
    (lookupA hub.transactionRegistrations w.listener.transactionId = none →
      (register w).trace =
        [Op.superRegister,
          Op.registerTxEvent hid w.listener.transactionId
            (objectAssign [("unregister", JSValue.vBool true)] w.listener.options),
          Op.connect hid (!w.listener.filtered)] ∧
      (register w).world.listener.eventHub = some hid) := by
  have hne : w.nextHubId ≠ hid := by
    obtain ⟨hm, he⟩ := findHub_eq_some_mem _ _ _ hfind
    have := hwf hub hm
    omega
  refine ⟨?_, ?_, ?_⟩
  · intro hconf hfix
    refine ⟨?_, ?_, hne⟩ <;>
      simp [register, registerOnHub, hhub, hfind, isAlreadyRegistered, hconf, hfix,
        mgrGetEventHubForceNew]
  · intro hconf hfix
    refine ⟨?_, ?_, hne⟩ <;>
      simp [register, registerOnHub, hhub, hfind, isAlreadyRegistered, hconf, hfix,
        mgrGetFixedEventHub]
  · intro hnoconf
    obtain ⟨h1, h2, _, _, _⟩ := register_bound_no_conflict w hid hub hhub hfind hnoconf
    exact ⟨h1, h2⟩

/-- Witness for C1: a listener whose bound hub 5 already watches `tx1`
substitutes a force-new hub 6 before installing the watch. -/
theorem register_conflict_substitutes_before_watch_witness :
    ((⟨⟨"tx1", "tx1L", [], some 5, none, false, false⟩,
        [⟨5, "p0", [("tx1", [])], false, false, false⟩], 6⟩ : World).listener.eventHub =
      some 5) ∧
    (findHub (⟨⟨"tx1", "tx1L", [], some 5, none, false, false⟩,
        [⟨5, "p0", [("tx1", [])], false, false, false⟩], 6⟩ : World).hubs 5 =
      some ⟨5, "p0", [("tx1", [])], false, false, false⟩) ∧
    (∀ g ∈ (⟨⟨"tx1", "tx1L", [], some 5, none, false, false⟩,
        [⟨5, "p0", [("tx1", [])], false, false, false⟩], 6⟩ : World).hubs,
      g.hubId < 6) ∧
    (((lookupA (⟨5, "p0", [("tx1", [])], false, false, false⟩ : Hub).transactionRegistrations
        "tx1").isSome = true →
      truthyProp ([] : JSObj) "fixedEventHub" = false →
      (register ⟨⟨"tx1", "tx1L", [], some 5, none, false, false⟩,
          [⟨5, "p0", [("tx1", [])], false, false, false⟩], 6⟩).trace =
        [Op.superRegister, Op.getEventHub "p0" true,
          Op.registerTxEvent 6 "tx1" (objectAssign [("unregister", JSValue.vBool true)] []),
          Op.connect 6 true] ∧
      (register ⟨⟨"tx1", "tx1L", [], some 5, none, false, false⟩,
          [⟨5, "p0", [("tx1", [])], false, false, false⟩], 6⟩).world.listener.eventHub =
        some 6 ∧
      (6 : Nat) ≠ 5) ∧
    ((lookupA (⟨5, "p0", [("tx1", [])], false, false, false⟩ : Hub).transactionRegistrations
        "tx1").isSome = true →
      truthyProp ([] : JSObj) "fixedEventHub" = true →
      (register ⟨⟨"tx1", "tx1L", [], some 5, none, false, false⟩,
          [⟨5, "p0", [("tx1", [])], false, false, false⟩], 6⟩).trace =
        [Op.superRegister, Op.getFixedEventHub "p0",
          Op.registerTxEvent 6 "tx1" (objectAssign [("unregister", JSValue.vBool true)] []),
          Op.connect 6 true] ∧
      (register ⟨⟨"tx1", "tx1L", [], some 5, none, false, false⟩,
          [⟨5, "p0", [("tx1", [])], false, false, false⟩], 6⟩).world.listener.eventHub =
        some 6 ∧
      (6 : Nat) ≠ 5) ∧
    (lookupA (⟨5, "p0", [("tx1", [])], false, false, false⟩ : Hub).transactionRegistrations
        "tx1" = none →
      (register ⟨⟨"tx1", "tx1L", [], some 5, none, false, false⟩,
          [⟨5, "p0", [("tx1", [])], false, false, false⟩], 6⟩).trace =
        [Op.superRegister,
          Op.registerTxEvent 5 "tx1" (objectAssign [("unregister", JSValue.vBool true)] []),
          Op.connect 5 true] ∧
      (register ⟨⟨"tx1", "tx1L", [], some 5, none, false, false⟩,
          [⟨5, "p0", [("tx1", [])], false, false, false⟩], 6⟩).world.listener.eventHub =
        some 5)) :=
  ⟨rfl, rfl, by decide,
    register_conflict_substitutes_before_watch
      ⟨⟨"tx1", "tx1L", [], some 5, none, false, false⟩,
        [⟨5, "p0", [("tx1", [])], false, false, false⟩], 6⟩
      5 ⟨5, "p0", [("tx1", [])], false, false, false⟩ rfl rfl (by decide)⟩

/-- C6: the options object `register()` passes to `registerTxEvent` is
`Object.assign({unregister: true}, this.options)`: its `unregister` key is
`true` when the caller did not set one, and every key the caller did set —
including an explicit `unregister: false` — keeps the caller's value, the
caller's entries overriding the forced default. -/
theorem register_tx_options_merge (w : World) (hid : Nat) (hub : Hub)
    (hhub : w.listener.eventHub = some hid)
    (hfind : findHub w.hubs hid = some hub)
    (hnoconf : lookupA hub.transactionRegistrations w.listener.transactionId = none)
    (hnd : (w.listener.options.map Prod.fst).Nodup) :
    (register w).trace =
      [Op.superRegister,
        Op.registerTxEvent hid w.listener.transactionId
          (objectAssign [("unregister", JSValue.vBool true)] w.listener.options),
        Op.connect hid (!w.listener.filtered)] ∧
    (lookupA w.listener.options "unregister" = none →
      lookupA (objectAssign [("unregister", JSValue.vBool true)] w.listener.options)
        "unregister" = some (JSValue.vBool true)) ∧
    ∀ (k : String) (v : JSValue), lookupA w.listener.options k = some v →
      lookupA (objectAssign [("unregister", JSValue.vBool true)] w.listener.options) k =
        some v := by
  refine ⟨(register_bound_no_conflict w hid hub hhub hfind hnoconf).1, ?_, ?_⟩
  · intro hnone
    rw [lookupA_objectAssign_not_mem _ _ _ (not_mem_keys_of_lookupA_eq_none _ _ hnone)]
    simp [lookupA]
  · intro k v hv
    exact lookupA_objectAssign_mem _ _ _ _ hnd hv

/-- Witness for C6: a caller who explicitly sets `unregister: false` keeps
that value through the merge. -/
theorem register_tx_options_merge_witness :
    ((⟨⟨"tx1", "tx1L", [("unregister", JSValue.vBool false)], some 0, none, false, false⟩,
        [⟨0, "p", [], false, false, false⟩], 1⟩ : World).listener.eventHub = some 0) ∧
    (lookupA (⟨0, "p", [], false, false, false⟩ : Hub).transactionRegistrations "tx1" =
      none) ∧
    (([("unregister", JSValue.vBool false)] : JSObj).map Prod.fst).Nodup ∧
    ((register ⟨⟨"tx1", "tx1L", [("unregister", JSValue.vBool false)], some 0, none, false,
        false⟩, [⟨0, "p", [], false, false, false⟩], 1⟩).trace =
      [Op.superRegister,
        Op.registerTxEvent 0 "tx1"
          (objectAssign [("unregister", JSValue.vBool true)]
            [("unregister", JSValue.vBool false)]),
        Op.connect 0 true] ∧
    (lookupA ([("unregister", JSValue.vBool false)] : JSObj) "unregister" = none →
      lookupA (objectAssign [("unregister", JSValue.vBool true)]
        [("unregister", JSValue.vBool false)]) "unregister" = some (JSValue.vBool true)) ∧
    ∀ (k : String) (v : JSValue),
      lookupA ([("unregister", JSValue.vBool false)] : JSObj) k = some v →
      lookupA (objectAssign [("unregister", JSValue.vBool true)]
        [("unregister", JSValue.vBool false)]) k = some v) :=
  ⟨rfl, rfl, by decide,
    register_tx_options_merge
      ⟨⟨"tx1", "tx1L", [("unregister", JSValue.vBool false)], some 0, none, false, false⟩,
        [⟨0, "p", [], false, false, false⟩], 1⟩
      0 ⟨0, "p", [], false, false, false⟩ rfl rfl rfl (by decide)⟩

/-- C7: a `register()` call with no bound hub and `fixedEventHub` unset
requests a replay-capable hub from the manager, forces `disconnect` to true
in the merged options, recursively re-invokes `register()` (the second
`superRegister` in the trace), and completes successfully with the fresh
hub bound and the `registered` flag true — without the caller supplying a
hub. -/
theorem register_no_hub_acquires_replay (w : World)
    (hhub : w.listener.eventHub = none)
    (hfix : truthyProp w.listener.options "fixedEventHub" = false)
    (hreg : w.listener.registered = false)
    (hwf : ∀ g ∈ w.hubs, g.hubId < w.nextHubId) :
    (register w).trace =
      [Op.superRegister, Op.getReplayEventHub, Op.superRegister,
        Op.registerTxEvent w.nextHubId w.listener.transactionId
          (objectAssign [("unregister", JSValue.vBool true)]
            (setA w.listener.options "disconnect" (JSValue.vBool true))),
        Op.connect w.nextHubId (!w.listener.filtered)] ∧
    (register w).result = RunResult.ok ∧
    (register w).world.listener.eventHub = some w.nextHubId ∧
    (register w).world.listener.registered = true ∧
    ∃ h : Hub, findHub (register w).world.hubs w.nextHubId = some h ∧
      h.replayCapable = true := by
  have hfr : findHub (w.hubs ++ [freshHub w.nextHubId "" true]) w.nextHubId =
      some (freshHub w.nextHubId "" true) := by
    rw [findHub_append_not_mem _ _ _ (fun g hg => Nat.ne_of_lt (hwf g hg))]
    simp [findHub, freshHub]
  refine ⟨?_, ?_, ?_, ?_, ?_⟩
  · simp [register, registerOnHub, registerWithNewEventHubPre, mgrGetReplayEventHub,
      hhub, hfix, hreg, hfr, isAlreadyRegistered, freshHub_transactionRegistrations, lookupA]
  · simp [register, registerOnHub, registerWithNewEventHubPre, mgrGetReplayEventHub,
      hhub, hfix, hreg, hfr, isAlreadyRegistered, freshHub_transactionRegistrations, lookupA]
  · simp [register, registerOnHub, registerWithNewEventHubPre, mgrGetReplayEventHub,
      hhub, hfix, hreg, hfr, isAlreadyRegistered, freshHub_transactionRegistrations, lookupA]
  · simp [register, registerOnHub, registerWithNewEventHubPre, mgrGetReplayEventHub,
      hhub, hfix, hreg, hfr, isAlreadyRegistered, freshHub_transactionRegistrations, lookupA]
  · refine ⟨hubConnect (!w.listener.filtered)
      (hubInstall w.listener.transactionId
        (objectAssign [("unregister", JSValue.vBool true)]
          (setA w.listener.options "disconnect" (JSValue.vBool true)))
        (freshHub w.nextHubId "" true)), ?_, ?_⟩
    · simp [register, registerOnHub, registerWithNewEventHubPre, mgrGetReplayEventHub,
        hhub, hfix, hreg, hfr, isAlreadyRegistered, freshHub_transactionRegistrations,
        lookupA, findHub_updateHub_self, hubInstall_hubId, hubConnect_hubId]
    · simp [hubConnect, hubInstall, freshHub]

/-- Witness for C7 at a concrete input with no hub bound. -/
theorem register_no_hub_acquires_replay_witness :
    ((⟨⟨"tx1", "tx1L", [], none, none, false, false⟩, [], 0⟩ : World).listener.eventHub =
      none) ∧
    (truthyProp ([] : JSObj) "fixedEventHub" = false) ∧
    ((register ⟨⟨"tx1", "tx1L", [], none, none, false, false⟩, [], 0⟩).trace =
      [Op.superRegister, Op.getReplayEventHub, Op.superRegister,
        Op.registerTxEvent 0 "tx1"
          (objectAssign [("unregister", JSValue.vBool true)]
            (setA [] "disconnect" (JSValue.vBool true))),
        Op.connect 0 true] ∧
    (register ⟨⟨"tx1", "tx1L", [], none, none, false, false⟩, [], 0⟩).result =
      RunResult.ok ∧
    (register ⟨⟨"tx1", "tx1L", [], none, none, false, false⟩,
      [], 0⟩).world.listener.eventHub = some 0 ∧
    (register ⟨⟨"tx1", "tx1L", [], none, none, false, false⟩,
      [], 0⟩).world.listener.registered = true ∧
    ∃ h : Hub, findHub (register ⟨⟨"tx1", "tx1L", [], none, none, false, false⟩,
      [], 0⟩).world.hubs 0 = some h ∧ h.replayCapable = true) :=
  ⟨rfl, rfl,
    register_no_hub_acquires_replay
      ⟨⟨"tx1", "tx1L", [], none, none, false, false⟩, [], 0⟩
      rfl rfl rfl (by decide)⟩

/-- C9: the hub-acquisition fallback mutates the listener's options object
in place, setting `disconnect` to true; the mutation persists in the
listener's (caller-supplied) options after `register()` returns, and no key
other than `disconnect` is changed by the fallback. -/
theorem fallback_mutates_only_disconnect (w : World)
    (hhub : w.listener.eventHub = none)
    (hfix : truthyProp w.listener.options "fixedEventHub" = false)
    (hreg : w.listener.registered = false)
    (hwf : ∀ g ∈ w.hubs, g.hubId < w.nextHubId) :
    (register w).world.listener.options =
      setA w.listener.options "disconnect" (JSValue.vBool true) ∧
    lookupA (register w).world.listener.options "disconnect" =
      some (JSValue.vBool true) ∧
    ∀ k : String, k ≠ "disconnect" →
      lookupA (register w).world.listener.options k = lookupA w.listener.options k := by
  have hfr : findHub (w.hubs ++ [freshHub w.nextHubId "" true]) w.nextHubId =
      some (freshHub w.nextHubId "" true) := by
    rw [findHub_append_not_mem _ _ _ (fun g hg => Nat.ne_of_lt (hwf g hg))]
    simp [findHub, freshHub]
  have h1 : (register w).world.listener.options =
      setA w.listener.options "disconnect" (JSValue.vBool true) := by
    simp [register, registerOnHub, registerWithNewEventHubPre, mgrGetReplayEventHub,
      hhub, hfix, hreg, hfr, isAlreadyRegistered, freshHub_transactionRegistrations, lookupA]
  refine ⟨h1, ?_, ?_⟩
  · rw [h1]
    exact lookupA_setA_self _ _ _
  · intro k hk
    rw [h1]
    exact lookupA_setA_ne _ _ _ _ hk

/-- Witness for C9: a pre-set unrelated option survives the fallback while
`disconnect` is forced on. -/
theorem fallback_mutates_only_disconnect_witness :
    ((⟨⟨"tx1", "tx1L", [("checkpointer", JSValue.vStr "cp")], none, none, false, false⟩,
        [], 0⟩ : World).listener.eventHub = none) ∧
    (truthyProp ([("checkpointer", JSValue.vStr "cp")] : JSObj) "fixedEventHub" = false) ∧
    ((register ⟨⟨"tx1", "tx1L", [("checkpointer", JSValue.vStr "cp")], none, none, false,
        false⟩, [], 0⟩).world.listener.options =
      setA [("checkpointer", JSValue.vStr "cp")] "disconnect" (JSValue.vBool true) ∧
    lookupA (register ⟨⟨"tx1", "tx1L", [("checkpointer", JSValue.vStr "cp")], none, none,
        false, false⟩, [], 0⟩).world.listener.options "disconnect" =
      some (JSValue.vBool true) ∧
    ∀ k : String, k ≠ "disconnect" →
      lookupA (register ⟨⟨"tx1", "tx1L", [("checkpointer", JSValue.vStr "cp")], none, none,
          false, false⟩, [], 0⟩).world.listener.options k =
        lookupA ([("checkpointer", JSValue.vStr "cp")] : JSObj) k) :=
  ⟨rfl, rfl,
    fallback_mutates_only_disconnect
      ⟨⟨"tx1", "tx1L", [("checkpointer", JSValue.vStr "cp")], none, none, false, false⟩,
        [], 0⟩
      rfl rfl rfl (by decide)⟩

end CommitListener
